import Mathlib

/-!
Verification of the azidentity credential-chain and generated-client behavior
of this repository.  The Go implementation files of the credential subsystem
(chained_token_credential.go, environment_credential.go, the token cache) are
not present under src/; only the package README (src/unnamed/part_000) and one
generated client (availableoperations.go) are.  Definitions for the credential
subsystem are therefore modelled from the spec and the README, as their doc
comments state; the generated client is embedded from its Go source.
-/

/-- An OAuth access token: an opaque bearer string plus an expiry timestamp
(seconds since an arbitrary epoch). -/
structure AccessToken where
  token : String
  expiresOn : Nat
deriving DecidableEq

/-- The two-kind error taxonomy of the credential layer: prerequisites absent
(unavailable) versus exchange rejected (authenticationFailed), each carrying a
diagnostic message. -/
inductive CredentialError where
  | unavailable (message : String)
  | authenticationFailed (message : String)
deriving DecidableEq

/-- The observable outcome of invoking one candidate credential's GetToken. -/
abbrev CredOutcome := Except CredentialError AccessToken

/-- Modelled from the spec: the aggregated chain error message concatenates
every constituent failure reason in chain order (separated here by a newline);
chained_token_credential.go is not under src/. -/
def chainedErrorMessage : List String → String
  | [] => ""
  | [m] => m
  | m :: rest => m ++ "\n" ++ chainedErrorMessage rest

/-- Modelled from the spec and the README (src/unnamed/part_000 lines 104-106
and 210-213): the chain tries each candidate in turn; a token stops the chain,
a CredentialUnavailable failure records its message and advances, and an
AuthenticationFailed failure stops the chain with an error collecting the
messages of every credential tried so far.  The second component counts how
many candidates were invoked (candidate i is invoked iff i < count).
chained_token_credential.go is not under src/. -/
def getTokenLoop : List CredOutcome → List String → (Except CredentialError AccessToken) × Nat
  | [], msgs => (.error (.unavailable (chainedErrorMessage msgs)), 0)
  | .ok tok :: _, _ => (.ok tok, 1)
  | .error (.unavailable m) :: rest, msgs =>
      let r := getTokenLoop rest (msgs ++ [m])
      (r.1, r.2 + 1)
  | .error (.authenticationFailed m) :: _, msgs =>
      (.error (.authenticationFailed (chainedErrorMessage (msgs ++ [m]))), 1)

/-- Modelled from the spec: the aggregated error produced by an empty chain
("an empty chain fails immediately with an aggregated no-credentials-configured
error"); chained_token_credential.go is not under src/. -/
def noCredentialsMessage : String := "no credentials configured"

/-- Modelled from the spec and the README: GetToken of a ChainedTokenCredential.
Returns the outcome together with the number of candidates invoked;
chained_token_credential.go is not under src/. -/
def chainedGetToken (creds : List CredOutcome) : (Except CredentialError AccessToken) × Nat :=
  match creds with
  | [] => (.error (.unavailable noCredentialsMessage), 0)
  | c :: rest => getTokenLoop (c :: rest) []

theorem chainedGetToken_cons (c : CredOutcome) (rest : List CredOutcome) :
    chainedGetToken (c :: rest) = getTokenLoop (c :: rest) [] := rfl

theorem getTokenLoop_unavailable_run (ms : List String) (msgs : List String)
    (c : CredOutcome) (rest : List CredOutcome) :
    getTokenLoop (ms.map (fun m => Except.error (CredentialError.unavailable m)) ++ c :: rest) msgs
      = ((getTokenLoop (c :: rest) (msgs ++ ms)).1,
         (getTokenLoop (c :: rest) (msgs ++ ms)).2 + ms.length) := by
  induction ms generalizing msgs with
  | nil => simp
  | cons m tail ih =>
      simp only [List.map_cons, List.cons_append, getTokenLoop, List.append_eq]
      rw [ih (msgs ++ [m])]
      simp only [List.append_assoc, List.singleton_append, Prod.mk.injEq, List.length_cons]
      exact ⟨trivial, by omega⟩

theorem chainedGetToken_ne_nil (creds : List CredOutcome) (h : creds ≠ []) :
    chainedGetToken creds = getTokenLoop creds [] := by
  cases creds with
  | nil => exact absurd rfl h
  | cons c rest => rfl

theorem getTokenLoop_all_unavailable (ms : List String) (msgs : List String) :
    getTokenLoop (ms.map (fun s => Except.error (CredentialError.unavailable s))) msgs
      = (Except.error (CredentialError.unavailable (chainedErrorMessage (msgs ++ ms))),
         ms.length) := by
  induction ms generalizing msgs with
  | nil => simp [getTokenLoop]
  | cons m tail ih =>
      simp only [List.map_cons, getTokenLoop, ih (msgs ++ [m])]
      simp [List.append_assoc]

theorem mem_chainedErrorMessage (ms : List String) (m : String) (hm : m ∈ ms) :
    ∃ l r : List Char, (chainedErrorMessage ms).data = l ++ m.data ++ r := by
  induction ms with
  | nil => cases hm
  | cons x tail ih =>
      cases tail with
      | nil =>
          rcases List.mem_singleton.mp hm with rfl
          exact ⟨[], [], by simp [chainedErrorMessage]⟩
      | cons y rest =>
          rcases List.mem_cons.mp hm with rfl | hmem
          · refine ⟨[], '\n' :: (chainedErrorMessage (y :: rest)).data, ?_⟩
            simp [chainedErrorMessage, String.data_append]
          · obtain ⟨l, r, hl⟩ := ih hmem
            refine ⟨x.data ++ '\n' :: l, r, ?_⟩
            simp [chainedErrorMessage, String.data_append, hl]

/-- Claim C1, counterexample: a chain whose first candidate fails with
AuthenticationFailed and whose second candidate would succeed does not continue
to the second candidate; it aborts with the AuthenticationFailed error after
invoking only the first candidate, contrary to the claim that the chain
continues past AuthenticationFailed. -/
theorem chainedGetToken_auth_failed_aborts_cex :
    chainedGetToken [Except.error (CredentialError.authenticationFailed "bad secret"),
        Except.ok ⟨"tok", 100⟩]
      = (Except.error (CredentialError.authenticationFailed "bad secret"), 1)
    ∧ (chainedGetToken [Except.error (CredentialError.authenticationFailed "bad secret"),
        Except.ok ⟨"tok", 100⟩]).2 < 2 := ⟨rfl, by decide⟩

/-- Claim C1, amended: when the candidates at positions 0..k-1 all fail with
CredentialUnavailable and the candidate at position k fails with
AuthenticationFailed, the chain stops at position k (invoking exactly k+1
candidates, never any later one) and returns an AuthenticationFailed error
collecting the messages of the credentials tried, rather than continuing. -/
theorem chainedGetToken_auth_failed_aborts (ms : List String) (m : String)
    (post : List CredOutcome) :
    chainedGetToken (ms.map (fun s => Except.error (CredentialError.unavailable s))
        ++ Except.error (CredentialError.authenticationFailed m) :: post)
      = (Except.error (CredentialError.authenticationFailed (chainedErrorMessage (ms ++ [m]))),
         ms.length + 1) := by
  rw [chainedGetToken_ne_nil _ (by simp), getTokenLoop_unavailable_run]
  simp [getTokenLoop, Nat.add_comm]

/-- Claim C2: when the candidates at positions 0..k-1 all fail with
CredentialUnavailable and the candidate at position k succeeds with a token,
the chain returns exactly that token and invokes exactly k+1 candidates, so
no candidate after position k is ever invoked. -/
theorem chainedGetToken_first_success (ms : List String) (tok : AccessToken)
    (post : List CredOutcome) :
    chainedGetToken (ms.map (fun s => Except.error (CredentialError.unavailable s))
        ++ Except.ok tok :: post)
      = (Except.ok tok, ms.length + 1) := by
  rw [chainedGetToken_ne_nil _ (by simp), getTokenLoop_unavailable_run]
  simp [getTokenLoop, Nat.add_comm]

/-- Claim C3, counterexample: in a chain whose first candidate fails with
AuthenticationFailed "A" and whose second fails with CredentialUnavailable "B",
every candidate fails, yet the chain's error message is exactly "A", which does
not contain the second candidate's reason "B" as a segment, contrary to the
claim that the aggregated message contains every candidate's reason. -/
theorem chainedGetToken_aggregation_cex :
    (chainedGetToken [Except.error (CredentialError.authenticationFailed "A"),
        Except.error (CredentialError.unavailable "B")]).1
      = Except.error (CredentialError.authenticationFailed "A")
    ∧ ¬ ∃ l r : List Char, ("A" : String).data = l ++ ("B" : String).data ++ r := by
  refine ⟨rfl, ?_⟩
  rintro ⟨l, r, h⟩
  have h' : (['A'] : List Char) = l ++ ['B'] ++ r := h
  have hlen := congrArg List.length h'
  simp only [List.length_append, List.length_cons, List.length_nil] at hlen
  have hl : l = [] := List.eq_nil_of_length_eq_zero (by omega)
  have hr : r = [] := List.eq_nil_of_length_eq_zero (by omega)
  subst hl; subst hr
  exact absurd h' (by decide)

/-- Claim C3, amended: when every candidate of a nonempty chain fails with
CredentialUnavailable, the chain fails with a single aggregated error whose
message is the concatenation of the candidates' failure reasons in chain
order, and that message contains each candidate's individual reason as a
segment. -/
theorem chainedGetToken_all_unavailable_aggregates (ms : List String) (h : ms ≠ []) :
    chainedGetToken (ms.map (fun s => Except.error (CredentialError.unavailable s)))
      = (Except.error (CredentialError.unavailable (chainedErrorMessage ms)), ms.length)
    ∧ ∀ m ∈ ms, ∃ l r : List Char,
        (chainedErrorMessage ms).data = l ++ m.data ++ r := by
  constructor
  · rw [chainedGetToken_ne_nil _ (by simpa using h), getTokenLoop_all_unavailable]
    simp
  · intro m hm
    exact mem_chainedErrorMessage ms m hm

/-- Witness for the amended claim C3 at a concrete two-candidate chain. -/
theorem chainedGetToken_all_unavailable_aggregates_witness :
    (["env vars missing", "no managed identity endpoint"] : List String) ≠ []
    ∧ (chainedGetToken ((["env vars missing", "no managed identity endpoint"] : List String).map
          (fun s => Except.error (CredentialError.unavailable s)))
        = (Except.error (CredentialError.unavailable
            (chainedErrorMessage ["env vars missing", "no managed identity endpoint"])),
           (["env vars missing", "no managed identity endpoint"] : List String).length)
       ∧ ∀ m ∈ (["env vars missing", "no managed identity endpoint"] : List String),
           ∃ l r : List Char,
             (chainedErrorMessage ["env vars missing", "no managed identity endpoint"]).data
               = l ++ m.data ++ r) :=
  ⟨by decide,
   chainedGetToken_all_unavailable_aggregates
     ["env vars missing", "no managed identity endpoint"] (by decide)⟩

/-- Claim C4: GetToken on the empty chain fails immediately with the aggregated
no-credentials-configured error and invokes zero candidates, hence performs no
network call. -/
theorem chainedGetToken_empty :
    chainedGetToken [] = (Except.error (CredentialError.unavailable noCredentialsMessage), 0) :=
  rfl

/-- The environment variables EnvironmentCredential reads, each either set to a
value or unset.  Fields in order: AZURE_CLIENT_ID, AZURE_TENANT_ID,
AZURE_CLIENT_SECRET, AZURE_CLIENT_CERTIFICATE_PATH, AZURE_USERNAME,
AZURE_PASSWORD. -/
structure EnvVars where
  clientID : Option String
  tenantID : Option String
  clientSecret : Option String
  certificatePath : Option String
  username : Option String
  password : Option String
deriving DecidableEq

/-- The authentication flow EnvironmentCredential resolves to. -/
inductive EnvFlow where
  | secret (clientID tenantID clientSecret : String)
  | certificate (clientID tenantID certificatePath : String)
  | usernamePassword (clientID username password : String)
deriving DecidableEq

/-- Modelled from the spec: EnvironmentCredential resolution order over the
variable sets, first complete match wins, an incomplete higher-priority set
falls through to the next set, and CredentialUnavailable when no set is
complete; environment_credential.go is not under src/. -/
def environmentCredentialResolve (e : EnvVars) : Except CredentialError EnvFlow :=
  match e.clientID, e.tenantID, e.clientSecret with
  | some cid, some tid, some sec => .ok (.secret cid tid sec)
  | _, _, _ =>
    match e.clientID, e.tenantID, e.certificatePath with
    | some cid, some tid, some path => .ok (.certificate cid tid path)
    | _, _, _ =>
      match e.clientID, e.username, e.password with
      | some cid, some u, some p => .ok (.usernamePassword cid u p)
      | _, _, _ => .error (.unavailable "Missing environment variables for authentication")

/-- Claim C5: with only AZURE_CLIENT_ID, AZURE_TENANT_ID, AZURE_CLIENT_SECRET
set, EnvironmentCredential resolves via the secret flow; with only
AZURE_CLIENT_ID, AZURE_TENANT_ID, AZURE_CLIENT_CERTIFICATE_PATH set, it
resolves via the certificate flow; an incomplete higher-priority set (secret
present but tenant missing) falls through to the next complete set; and with
nothing set it fails with CredentialUnavailable. -/
theorem environmentCredential_resolution :
    (∀ cid tid sec, environmentCredentialResolve
        ⟨some cid, some tid, some sec, none, none, none⟩ = .ok (.secret cid tid sec))
    ∧ (∀ cid tid path, environmentCredentialResolve
        ⟨some cid, some tid, none, some path, none, none⟩ = .ok (.certificate cid tid path))
    ∧ (∀ cid sec u p, environmentCredentialResolve
        ⟨some cid, none, some sec, none, some u, some p⟩ = .ok (.usernamePassword cid u p))
    ∧ (∃ m, environmentCredentialResolve ⟨none, none, none, none, none, none⟩
        = .error (.unavailable m)) :=
  ⟨fun _ _ _ => rfl, fun _ _ _ => rfl, fun _ _ _ _ => rfl, ⟨_, rfl⟩⟩

/-- Scope-set equality, order-independent, as the token cache key comparison. -/
def sameScopes (a b : List String) : Bool :=
  a.all (fun s => decide (s ∈ b)) && b.all (fun s => decide (s ∈ a))

theorem sameScopes_refl (s : List String) : sameScopes s s = true := by
  simp [sameScopes, List.all_eq_true]

/-- Modelled from the spec: the per-credential token cache.  `refresh t` stands
for the underlying network authentication exchange performed at time `t`;
`skew` is the safety margin subtracted from the expiry; `cache` holds the last
obtained token and its scope set.  Returns the token handed to the caller, the
new cache state, and the number of network exchanges performed (0 or 1); the
token-cache implementation is not under src/. -/
def cachedGetToken (refresh : Nat → AccessToken) (skew : Nat) (now : Nat)
    (scopes : List String) (cache : Option (List String × AccessToken)) :
    AccessToken × Option (List String × AccessToken) × Nat :=
  match cache with
  | some (s, tok) =>
      if sameScopes s scopes && decide (now + skew < tok.expiresOn) then
        (tok, some (s, tok), 0)
      else
        let t := refresh now
        (t, some (scopes, t), 1)
  | none =>
      let t := refresh now
      (t, some (scopes, t), 1)

/-- Claim C7: starting from a cold cache, a GetToken call at time t0 followed
by a second call at time t1 with the same scope set, made within the first
token's validity window minus the safety skew, returns the identical token on
the second call and performs exactly one network exchange in total. -/
theorem cachedGetToken_idempotent (refresh : Nat → AccessToken) (skew t0 t1 : Nat)
    (scopes : List String) (h : t1 + skew < (refresh t0).expiresOn) :
    (cachedGetToken refresh skew t1 scopes
        (cachedGetToken refresh skew t0 scopes none).2.1).1
      = (cachedGetToken refresh skew t0 scopes none).1
    ∧ (cachedGetToken refresh skew t0 scopes none).2.2
        + (cachedGetToken refresh skew t1 scopes
            (cachedGetToken refresh skew t0 scopes none).2.1).2.2 = 1 := by
  simp [cachedGetToken, sameScopes_refl, h]

/-- Witness for claim C7 at a concrete refresh function, skew and times. -/
theorem cachedGetToken_idempotent_witness :
    (10 + 120 < ((fun t => AccessToken.mk "tok" (t + 3600)) 0).expiresOn)
    ∧ ((cachedGetToken (fun t => AccessToken.mk "tok" (t + 3600)) 120 10 ["scope"]
          (cachedGetToken (fun t => AccessToken.mk "tok" (t + 3600)) 120 0 ["scope"] none).2.1).1
        = (cachedGetToken (fun t => AccessToken.mk "tok" (t + 3600)) 120 0 ["scope"] none).1
       ∧ (cachedGetToken (fun t => AccessToken.mk "tok" (t + 3600)) 120 0 ["scope"] none).2.2
           + (cachedGetToken (fun t => AccessToken.mk "tok" (t + 3600)) 120 10 ["scope"]
               (cachedGetToken (fun t => AccessToken.mk "tok" (t + 3600)) 120 0 ["scope"]
                 none).2.1).2.2 = 1) :=
  ⟨by decide,
   cachedGetToken_idempotent (fun t => AccessToken.mk "tok" (t + 3600)) 120 0 10 ["scope"]
     (by decide)⟩

/-- Claim C8: provided the underlying exchange always issues tokens whose
expiry lies strictly after the time of issue, every token cachedGetToken hands
to the caller has an expiry strictly in the future at the time of return; in
particular a cached token whose expiry has passed is never returned. -/
theorem cachedGetToken_never_expired (refresh : Nat → AccessToken) (skew now : Nat)
    (scopes : List String) (cache : Option (List String × AccessToken))
    (hfresh : ∀ t, t < (refresh t).expiresOn) :
    now < (cachedGetToken refresh skew now scopes cache).1.expiresOn := by
  cases cache with
  | none => exact hfresh now
  | some p =>
      obtain ⟨s, tok⟩ := p
      simp only [cachedGetToken]
      split
      · rename_i hcond
        simp only [Bool.and_eq_true, decide_eq_true_eq] at hcond
        exact Nat.lt_of_le_of_lt (Nat.le_add_right now skew) hcond.2
      · exact hfresh now

/-- Witness for claim C8 at a concrete cache state holding an expired token. -/
theorem cachedGetToken_never_expired_witness :
    (∀ t, t < ((fun u => AccessToken.mk "fresh" (u + 100)) t).expiresOn)
    ∧ 50 < (cachedGetToken (fun u => AccessToken.mk "fresh" (u + 100)) 2 50 ["s"]
        (some (["s"], AccessToken.mk "stale" 7))).1.expiresOn :=
  ⟨fun t => (by omega : t < t + 100),
   cachedGetToken_never_expired (fun u => AccessToken.mk "fresh" (u + 100)) 2 50 ["s"]
     (some (["s"], AccessToken.mk "stale" 7)) (fun t => (by omega : t < t + 100))⟩

/-- The result model of the List operation.  The Go model type
(AvailableOperationsListResponse in models.go, not under src/) carries a slice
of operation descriptions and an optional next-page link; operations are
abstracted to opaque strings here.  The Go zero value has a nil slice and nil
link. -/
structure AvailableOperationsListResponse where
  value : List String
  nextLink : Option String
deriving DecidableEq

/-- The Go zero value of AvailableOperationsListResponse, as produced by the
bare `return` in listNextResults when the next-results request is nil. -/
def zeroListResponse : AvailableOperationsListResponse := ⟨[], none⟩

/-- An HTTP response as ListResponder sees it: a status code and the decoded
JSON body (`none` models a body that fails to unmarshal into the result
type; the JSON decoder itself is the external encoding/json collaborator). -/
structure HTTPResponse where
  statusCode : Nat
  body : Option AvailableOperationsListResponse
deriving DecidableEq

/-- The errors ListResponder can produce: the azure.RequestError raised by
WithErrorUnlessStatusCode, or a JSON unmarshalling failure. -/
inductive RespondError where
  | requestError (statusCode : Nat)
  | unmarshalError
deriving DecidableEq

/-- Embedded from availableoperations.go, ListResponder (lines 101-110): the
response passes azure.WithErrorUnlessStatusCode(http.StatusOK), which raises a
request error unless the status code is exactly 200, and then
autorest.ByUnmarshallingJSON decodes the body into the result (ByInspecting
and ByClosing have no observable effect on the result). -/
def ListResponder (resp : HTTPResponse) : Except RespondError AvailableOperationsListResponse :=
  if resp.statusCode = 200 then
    match resp.body with
    | some r => .ok r
    | none => .error .unmarshalError
  else .error (.requestError resp.statusCode)

/-- An opaque next-page HTTP request, as produced by the next-results
preparer. -/
structure ListRequest where
  url : String
deriving DecidableEq

/-- The errors listNextResults can produce, wrapping the failure of each
stage as autorest.NewErrorWithError does. -/
inductive NextResultsError where
  | prepareFailure (message : String)
  | sendFailure (message : String)
  | respondFailure (e : RespondError)
deriving DecidableEq

/-- Embedded from availableoperations.go, listNextResults (lines 112-131).
`prep` is the outcome of lastResults.availableOperationsListResponsePreparer:
an error, a nil request (`.ok none`, produced when there is no next link), or a
request.  `send` is ListSender.  The second component counts how many HTTP
requests ListSender sends. -/
def listNextResults (prep : Except String (Option ListRequest))
    (send : ListRequest → Except String HTTPResponse) :
    (Except NextResultsError AvailableOperationsListResponse) × Nat :=
  match prep with
  | .error e => (.error (.prepareFailure e), 0)
  | .ok none => (.ok zeroListResponse, 0)
  | .ok (some req) =>
      match send req with
      | .error e => (.error (.sendFailure e), 1)
      | .ok resp =>
          match ListResponder resp with
          | .ok r => (.ok r, 1)
          | .error e => (.error (.respondFailure e), 1)

/-- Claim C6, counterexample: a 204 response (a 2xx status) with a
well-formed body is not accepted by ListResponder; it is turned into a request
failure, contrary to the claim that any 2xx response is accepted. -/
theorem ListResponder_rejects_204_cex :
    (200 ≤ 204 ∧ 204 < 300)
    ∧ ListResponder ⟨204, some zeroListResponse⟩
        = .error (.requestError 204) := ⟨by decide, rfl⟩

/-- Claim C6, amended: ListResponder turns a response into a request failure
iff its status code is not exactly 200 (WithErrorUnlessStatusCode is passed
only http.StatusOK), and a 200 response whose body unmarshals is accepted with
its decoded body as the result. -/
theorem ListResponder_failure_iff (resp : HTTPResponse) :
    (ListResponder resp = .error (.requestError resp.statusCode) ↔ resp.statusCode ≠ 200)
    ∧ (∀ r, resp.body = some r → resp.statusCode = 200 → ListResponder resp = .ok r) := by
  constructor
  · constructor
    · intro h hs
      rw [ListResponder, if_pos hs] at h
      cases hb : resp.body with
      | none => rw [hb] at h; cases h
      | some r => rw [hb] at h; cases h
    · intro hs
      rw [ListResponder, if_neg hs]
  · intro r hb hs
    rw [ListResponder, if_pos hs, hb]

/-- Witness for the amended claim C6: a 404 response is a request failure and
a 200 response with a decoded body is accepted. -/
theorem ListResponder_failure_iff_witness :
    ListResponder ⟨404, none⟩ = .error (.requestError 404)
    ∧ ListResponder ⟨200, some zeroListResponse⟩ = .ok zeroListResponse :=
  ⟨(ListResponder_failure_iff ⟨404, none⟩).1.mpr (by decide),
   (ListResponder_failure_iff ⟨200, some zeroListResponse⟩).2 zeroListResponse rfl rfl⟩

/-- Claim C10: when the next-results preparer returns a nil request with no
error (the last page), listNextResults returns the zero-value result with no
error and sends no HTTP request, so page enumeration terminates cleanly. -/
theorem listNextResults_nil_request (send : ListRequest → Except String HTTPResponse) :
    listNextResults (.ok none) send = (.ok zeroListResponse, 0) := rfl
